import Mathlib

/-!
Shallow embedding of `src/crewai/telemetry/telemetry.py` (the crewAI
telemetry layer): the `Telemetry` class, its availability flags
(`ready`, `trace_set`), and each public span-emitting method.

Modelling conventions:
* OpenTelemetry primitives (`tracer.start_span`, `span.set_attribute`,
  `span.set_status`, `span.end`) are modelled as operations on an explicit
  `World` holding a span counter and a log of `Effect`s, parameterised by a
  fault oracle `Faults` that decides which primitive calls raise.  The
  libraries used by the emission methods raise ordinary `Exception`-class
  errors, which is what the methods' `except Exception` blocks catch, so the
  emission layer's error type is a single ordinary exception; the four
  termination-class `BaseException`s (`SystemExit`, `KeyboardInterrupt`,
  `GeneratorExit`, `asyncio.CancelledError`) are modelled exactly where the
  source distinguishes them, in `Telemetry.__init__` (here `telemetry_init`).
* `json.dumps` of user-supplied data is fallible (a cyclic or non-primitive
  object raises): a value passed to it is a `JsonVal`, a flag saying whether
  it serializes together with its rendered text.  `json.dumps` of a list of
  plain strings (the flow spans' `node_names`) always succeeds.
* Python `None`-able span handles are `Option Nat`; calling a method on
  `None` raises an ordinary `AttributeError`.
* Environment reads (`platform.*`, `os.cpu_count`,
  `pkg_resources.get_distribution("crewai").version`) are fields of `Env`.
-/

/-- The exception classes the source distinguishes: the four termination-class
signals re-raised by `Telemetry.__init__`, and every ordinary exception. -/
inductive PyExc where
  | systemExit
  | keyboardInterrupt
  | generatorExit
  | cancelledError
  | ordinary
deriving DecidableEq, Repr

/-- Whether an exception is one of the four termination-class signals listed in
`Telemetry.__init__` (`SystemExit`, `KeyboardInterrupt`, `GeneratorExit`,
`asyncio.CancelledError`). -/
def PyExc.isTerminal : PyExc → Bool
  | .ordinary => false
  | _ => true

/-- A value attached to a span attribute (Python str, int, bool or None). -/
inductive AttrValue where
  | str (s : String)
  | int (n : Int)
  | boolean (b : Bool)
  | noneV
deriving DecidableEq, Repr

/-- A Python object handed to `json.dumps`: either it serializes to `dumped`
or `json.dumps` raises (e.g. a cyclic or non-primitive object). -/
structure JsonVal where
  serializable : Bool
  dumped : String
deriving DecidableEq, Repr

/-- One observable side effect on the OpenTelemetry exporter: a span opened,
an attribute attached, a status set, or a span ended.  Spans are numbered by
the order in which they are opened. -/
inductive Effect where
  | started (sid : Nat) (name : String)
  | attr (sid : Nat) (key : String) (value : AttrValue)
  | statusOk (sid : Nat)
  | ended (sid : Nat)
deriving DecidableEq, Repr

/-- The exporter-side state: the next fresh span id and the effect log. -/
structure World where
  nextId : Nat
  log : List Effect
deriving DecidableEq, Repr

/-- Result of running a fragment of an emission method: a value, or an
ordinary in-flight exception (the kind `except Exception` catches). -/
inductive MResult (α : Type) where
  | ok (a : α)
  | exc
deriving DecidableEq, Repr

/-- Whether the fragment finished without raising. -/
def MResult.isOk {α : Type} : MResult α → Bool
  | .ok _ => true
  | .exc => false

/-- A fragment of Python code inside the telemetry layer: it reads and writes
the exporter world and either returns a value or raises an ordinary
exception.  Effects performed before a raise stay in the log. -/
def M (α : Type) : Type := World → MResult α × World

/-- Return a value, no effect (a pure Python expression). -/
def M.pure {α : Type} (a : α) : M α := fun w => (MResult.ok a, w)

/-- Sequencing: run `x`; on an exception propagate it, else continue with `k`. -/
def M.bind {α β : Type} (x : M α) (k : α → M β) : M β := fun w =>
  match x w with
  | (MResult.ok a, w') => k a w'
  | (MResult.exc, w') => (MResult.exc, w')

/-- Which primitive exporter calls raise (an ordinary exception), per span
name, span id and attribute key. -/
structure Faults where
  start_span : String → Bool
  set_attribute : Nat → String → Bool
  set_status : Nat → Bool
  end_span : Nat → Bool

/-- The fault-free oracle: every exporter primitive succeeds. -/
def noFaults : Faults := ⟨fun _ => false, fun _ _ => false, fun _ => false, fun _ => false⟩

/-- The oracle on which `span.set_attribute` fails exactly for attribute key
`k`, and every other primitive succeeds. -/
def failOnly (k : String) : Faults :=
  ⟨fun _ => false, fun _ key => key == k, fun _ => false, fun _ => false⟩

/-- `tracer.start_span(name)`: allocates a fresh span id and logs the open. -/
def start_span (f : Faults) (name : String) : M Nat := fun w =>
  if f.start_span name then (MResult.exc, w)
  else (MResult.ok w.nextId, ⟨w.nextId + 1, w.log ++ [Effect.started w.nextId name]⟩)

/-- `span.set_attribute(key, value)` on a possibly-`None` span handle:
on `None` raises (`AttributeError`), otherwise logs the attribute unless the
oracle makes this attachment fail. -/
def set_attribute (f : Faults) (span : Option Nat) (key : String) (v : AttrValue) : M Unit := fun w =>
  match span with
  | none => (MResult.exc, w)
  | some sid =>
    if f.set_attribute sid key then (MResult.exc, w)
    else (MResult.ok (), ⟨w.nextId, w.log ++ [Effect.attr sid key v]⟩)

/-- `span.set_status(Status(StatusCode.OK))` on a possibly-`None` handle. -/
def set_status_ok (f : Faults) (span : Option Nat) : M Unit := fun w =>
  match span with
  | none => (MResult.exc, w)
  | some sid =>
    if f.set_status sid then (MResult.exc, w)
    else (MResult.ok (), ⟨w.nextId, w.log ++ [Effect.statusOk sid]⟩)

/-- `span.end()` on a possibly-`None` handle. -/
def end_span (f : Faults) (span : Option Nat) : M Unit := fun w =>
  match span with
  | none => (MResult.exc, w)
  | some sid =>
    if f.end_span sid then (MResult.exc, w)
    else (MResult.ok (), ⟨w.nextId, w.log ++ [Effect.ended sid]⟩)

/-- A `try: body except Exception: pass` block returning `fallback` when the
body raises; effects already performed by the body are kept. -/
def catchException {α : Type} (body : M α) (fallback : α) : M α := fun w =>
  match body w with
  | (MResult.ok a, w') => (MResult.ok a, w')
  | (MResult.exc, w') => (MResult.ok fallback, w')

/-- `Telemetry._add_attribute`: a guarded `span.set_attribute`, swallowing any
exception of the one attachment. -/
def _add_attribute (f : Faults) (span : Option Nat) (key : String) (v : AttrValue) : M Unit :=
  catchException (set_attribute f span key v) ()

/-- `json.dumps(v)` for a user-supplied object. -/
def json_dumps (v : JsonVal) : M String := fun w =>
  if v.serializable then (MResult.ok v.dumped, w) else (MResult.exc, w)

/-- `json.dumps(vs)` for a user-supplied list: raises iff some element does. -/
def json_dumps_list (vs : List JsonVal) : M String := fun w =>
  if vs.all (fun v => v.serializable) then
    (MResult.ok ("[" ++ String.intercalate ", " (vs.map (fun v => v.dumped)) ++ "]"), w)
  else (MResult.exc, w)

/-- The value `json.dumps(inputs) if inputs else None` used by
`crew_creation`, `test_execution_span` and `crew_execution_span`. -/
def dumps_if_inputs (inputs : Option JsonVal) : M AttrValue := fun w =>
  match inputs with
  | none => (MResult.ok AttrValue.noneV, w)
  | some j => if j.serializable then (MResult.ok (AttrValue.str j.dumped), w) else (MResult.exc, w)

/-- `json.dumps(node_names)` for a list of plain strings: total. -/
def json_dumps_strings (xs : List String) : String :=
  "[" ++ String.intercalate ", " (xs.map (fun s => "\"" ++ s ++ "\"")) ++ "]"

/-- The `Telemetry` object's availability state: `self.ready` and
`self.trace_set`. -/
structure TState where
  ready : Bool
  trace_set : Bool
deriving DecidableEq, Repr

/-- Ambient environment reads used by the emission methods. -/
structure Env where
  python_version : String
  platform_full : String
  platform_release : String
  platform_system : String
  platform_version : String
  cpu_count : AttrValue
  crewai_version : String
deriving DecidableEq, Repr

/-- The serialized crew dictionary handed to `crew_creation` and
`crew_execution_span`; fields model `crew_data.get(...)` of the keys the
source reads (absent keys are `AttrValue.noneV`; `tasks`/`agents` default to
`[]`). -/
structure CrewData where
  crewai_version : AttrValue
  key : AttrValue
  id : AttrValue
  process : AttrValue
  memory : AttrValue
  tasks : List JsonVal
  agents : List JsonVal
  share_crew : Bool
deriving DecidableEq, Repr

/-- `task.output`: `raw` and `raw_output` fields read by `task_ended` and
`end_crew`. -/
structure TaskOutput where
  raw : String
  raw_output : String
deriving DecidableEq, Repr

/-- A live `Task` object as read by the telemetry layer. -/
structure TaskObj where
  key : String
  id : String
  description : String
  expected_output : String
  output : Option TaskOutput
deriving DecidableEq, Repr

/-- A live `Crew` object as read by the telemetry layer: `id` models
`str(crew.id)`, `execution_span` models `crew._execution_span` (possibly
absent). -/
structure CrewObj where
  key : String
  id : String
  share_crew : Bool
  tasks : List TaskObj
  execution_span : Option Nat
deriving DecidableEq, Repr

/-- An LLM object: only `llm.model` is read. -/
structure LLMObj where
  model : String
deriving DecidableEq, Repr

/-- How `Telemetry.__init__` ends: construction either re-raises a
termination-class signal or yields the object's state. -/
inductive InitResult where
  | raised (e : PyExc)
  | state (st : TState)
deriving DecidableEq, Repr

/-- `Telemetry.__init__`: sets `ready = False`, `trace_set = False`, then
builds the exporter pipeline.  `fault` is the exception (if any) raised
during pipeline construction: a termination-class signal is re-raised, any
other `BaseException` is swallowed leaving `ready = False`; on success
`ready = True`. -/
def telemetry_init (fault : Option PyExc) : InitResult :=
  match fault with
  | none => InitResult.state ⟨true, false⟩
  | some e => if e.isTerminal then InitResult.raised e else InitResult.state ⟨false, false⟩

/-- `Telemetry.set_tracer`: if `ready` and not yet `trace_set`, installs the
provider as process tracer (`fail` says whether that call raises); on failure
demotes both flags to `False`, on success sets `trace_set = True`; otherwise
a no-op. -/
def set_tracer (fail : Bool) (st : TState) : TState :=
  if st.ready && !st.trace_set then
    if fail then ⟨false, false⟩ else ⟨true, true⟩
  else st

/-- `Telemetry.crew_creation(crew_data, inputs)`: emits a "Crew Created" span
with always-tier attributes, plus opt-in attributes when
`crew_data.get("share_crew")`; the whole body is guarded by `ready` and a
`try/except Exception: pass`. -/
def crew_creation (env : Env) (f : Faults) (st : TState)
    (crew_data : CrewData) (inputs : Option JsonVal) : M Unit :=
  if st.ready then
    catchException
      (M.bind (start_span f "Crew Created") (fun sid =>
       M.bind (_add_attribute f (some sid) "crewai_version" crew_data.crewai_version) (fun _ =>
       M.bind (_add_attribute f (some sid) "python_version" (AttrValue.str env.python_version)) (fun _ =>
       M.bind (_add_attribute f (some sid) "crew_key" crew_data.key) (fun _ =>
       M.bind (_add_attribute f (some sid) "crew_id" crew_data.id) (fun _ =>
       M.bind (_add_attribute f (some sid) "crew_process" crew_data.process) (fun _ =>
       M.bind (_add_attribute f (some sid) "crew_memory" crew_data.memory) (fun _ =>
       M.bind (_add_attribute f (some sid) "crew_number_of_tasks" (AttrValue.int crew_data.tasks.length)) (fun _ =>
       M.bind (_add_attribute f (some sid) "crew_number_of_agents" (AttrValue.int crew_data.agents.length)) (fun _ =>
       M.bind
         (if crew_data.share_crew then
            M.bind (json_dumps_list crew_data.agents) (fun a =>
            M.bind (_add_attribute f (some sid) "crew_agents" (AttrValue.str a)) (fun _ =>
            M.bind (json_dumps_list crew_data.tasks) (fun t =>
            M.bind (_add_attribute f (some sid) "crew_tasks" (AttrValue.str t)) (fun _ =>
            M.bind (_add_attribute f (some sid) "platform" (AttrValue.str env.platform_full)) (fun _ =>
            M.bind (_add_attribute f (some sid) "platform_release" (AttrValue.str env.platform_release)) (fun _ =>
            M.bind (_add_attribute f (some sid) "platform_system" (AttrValue.str env.platform_system)) (fun _ =>
            M.bind (_add_attribute f (some sid) "platform_version" (AttrValue.str env.platform_version)) (fun _ =>
            M.bind (_add_attribute f (some sid) "cpus" env.cpu_count) (fun _ =>
            M.bind (dumps_if_inputs inputs) (fun iv =>
            _add_attribute f (some sid) "crew_inputs" iv))))))))))
          else M.pure ()) (fun _ =>
       M.bind (set_status_ok f (some sid)) (fun _ =>
       end_span f (some sid)))))))))))))
      ()
  else M.pure ()

/-- `Telemetry.task_started(crew, task)`: emits and fully closes a
"Task Created" span, then opens a "Task Execution" span and returns its
handle without closing it; returns `None` when not ready or on a swallowed
exception. -/
def task_started (f : Faults) (st : TState) (crew : CrewObj) (task : TaskObj) : M (Option Nat) :=
  if st.ready then
    catchException
      (M.bind (start_span f "Task Created") (fun csid =>
       M.bind (_add_attribute f (some csid) "crew_key" (AttrValue.str crew.key)) (fun _ =>
       M.bind (_add_attribute f (some csid) "crew_id" (AttrValue.str crew.id)) (fun _ =>
       M.bind (_add_attribute f (some csid) "task_key" (AttrValue.str task.key)) (fun _ =>
       M.bind (_add_attribute f (some csid) "task_id" (AttrValue.str task.id)) (fun _ =>
       M.bind
         (if crew.share_crew then
            M.bind (_add_attribute f (some csid) "formatted_description" (AttrValue.str task.description)) (fun _ =>
            _add_attribute f (some csid) "formatted_expected_output" (AttrValue.str task.expected_output))
          else M.pure ()) (fun _ =>
       M.bind (set_status_ok f (some csid)) (fun _ =>
       M.bind (end_span f (some csid)) (fun _ =>
       M.bind (start_span f "Task Execution") (fun sid =>
       M.bind (_add_attribute f (some sid) "crew_key" (AttrValue.str crew.key)) (fun _ =>
       M.bind (_add_attribute f (some sid) "crew_id" (AttrValue.str crew.id)) (fun _ =>
       M.bind (_add_attribute f (some sid) "task_key" (AttrValue.str task.key)) (fun _ =>
       M.bind (_add_attribute f (some sid) "task_id" (AttrValue.str task.id)) (fun _ =>
       M.bind
         (if crew.share_crew then
            M.bind (_add_attribute f (some sid) "formatted_description" (AttrValue.str task.description)) (fun _ =>
            _add_attribute f (some sid) "formatted_expected_output" (AttrValue.str task.expected_output))
          else M.pure ()) (fun _ =>
       M.pure (some sid))))))))))))))))
      none
  else M.pure none

/-- `Telemetry.task_ended(span, task, crew)`: attaches the opt-in
`task_output` attribute when sharing, then sets status and ends the received
handle; the handle may be `None`. -/
def task_ended (f : Faults) (st : TState) (span : Option Nat) (task : TaskObj) (crew : CrewObj) : M Unit :=
  if st.ready then
    catchException
      (M.bind
        (if crew.share_crew then
           _add_attribute f span "task_output"
             (AttrValue.str (match task.output with | some o => o.raw | none => ""))
         else M.pure ()) (fun _ =>
       M.bind (set_status_ok f span) (fun _ =>
       end_span f span)))
      ()
  else M.pure ()

/-- `Telemetry.tool_repeated_usage(llm, tool_name, attempts)`. -/
def tool_repeated_usage (env : Env) (f : Faults) (st : TState)
    (llm : Option LLMObj) (tool_name : String) (attempts : Int) : M Unit :=
  if st.ready then
    catchException
      (M.bind (start_span f "Tool Repeated Usage") (fun sid =>
       M.bind (_add_attribute f (some sid) "crewai_version" (AttrValue.str env.crewai_version)) (fun _ =>
       M.bind (_add_attribute f (some sid) "tool_name" (AttrValue.str tool_name)) (fun _ =>
       M.bind (_add_attribute f (some sid) "attempts" (AttrValue.int attempts)) (fun _ =>
       M.bind
         (match llm with
          | some l => _add_attribute f (some sid) "llm" (AttrValue.str l.model)
          | none => M.pure ()) (fun _ =>
       M.bind (set_status_ok f (some sid)) (fun _ =>
       end_span f (some sid))))))))
      ()
  else M.pure ()

/-- `Telemetry.tool_usage(llm, tool_name, attempts)`. -/
def tool_usage (env : Env) (f : Faults) (st : TState)
    (llm : Option LLMObj) (tool_name : String) (attempts : Int) : M Unit :=
  if st.ready then
    catchException
      (M.bind (start_span f "Tool Usage") (fun sid =>
       M.bind (_add_attribute f (some sid) "crewai_version" (AttrValue.str env.crewai_version)) (fun _ =>
       M.bind (_add_attribute f (some sid) "tool_name" (AttrValue.str tool_name)) (fun _ =>
       M.bind (_add_attribute f (some sid) "attempts" (AttrValue.int attempts)) (fun _ =>
       M.bind
         (match llm with
          | some l => _add_attribute f (some sid) "llm" (AttrValue.str l.model)
          | none => M.pure ()) (fun _ =>
       M.bind (set_status_ok f (some sid)) (fun _ =>
       end_span f (some sid))))))))
      ()
  else M.pure ()

/-- `Telemetry.tool_usage_error(llm)`. -/
def tool_usage_error (env : Env) (f : Faults) (st : TState) (llm : Option LLMObj) : M Unit :=
  if st.ready then
    catchException
      (M.bind (start_span f "Tool Usage Error") (fun sid =>
       M.bind (_add_attribute f (some sid) "crewai_version" (AttrValue.str env.crewai_version)) (fun _ =>
       M.bind
         (match llm with
          | some l => _add_attribute f (some sid) "llm" (AttrValue.str l.model)
          | none => M.pure ()) (fun _ =>
       M.bind (set_status_ok f (some sid)) (fun _ =>
       end_span f (some sid))))))
      ()
  else M.pure ()

/-- `Telemetry.individual_test_result_span(crew, quality, exec_time,
model_name)`; `quality` is `str(quality)` of the Python float. -/
def individual_test_result_span (env : Env) (f : Faults) (st : TState)
    (crew : CrewObj) (quality : String) (exec_time : Int) (model_name : String) : M Unit :=
  if st.ready then
    catchException
      (M.bind (start_span f "Crew Individual Test Result") (fun sid =>
       M.bind (_add_attribute f (some sid) "crewai_version" (AttrValue.str env.crewai_version)) (fun _ =>
       M.bind (_add_attribute f (some sid) "crew_key" (AttrValue.str crew.key)) (fun _ =>
       M.bind (_add_attribute f (some sid) "crew_id" (AttrValue.str crew.id)) (fun _ =>
       M.bind (_add_attribute f (some sid) "quality" (AttrValue.str quality)) (fun _ =>
       M.bind (_add_attribute f (some sid) "exec_time" (AttrValue.str (toString exec_time))) (fun _ =>
       M.bind (_add_attribute f (some sid) "model_name" (AttrValue.str model_name)) (fun _ =>
       M.bind (set_status_ok f (some sid)) (fun _ =>
       end_span f (some sid))))))))))
      ()
  else M.pure ()

/-- `Telemetry.test_execution_span(crew, iterations, inputs, model_name)`. -/
def test_execution_span (env : Env) (f : Faults) (st : TState)
    (crew : CrewObj) (iterations : Int) (inputs : Option JsonVal) (model_name : String) : M Unit :=
  if st.ready then
    catchException
      (M.bind (start_span f "Crew Test Execution") (fun sid =>
       M.bind (_add_attribute f (some sid) "crewai_version" (AttrValue.str env.crewai_version)) (fun _ =>
       M.bind (_add_attribute f (some sid) "crew_key" (AttrValue.str crew.key)) (fun _ =>
       M.bind (_add_attribute f (some sid) "crew_id" (AttrValue.str crew.id)) (fun _ =>
       M.bind (_add_attribute f (some sid) "iterations" (AttrValue.str (toString iterations))) (fun _ =>
       M.bind (_add_attribute f (some sid) "model_name" (AttrValue.str model_name)) (fun _ =>
       M.bind
         (if crew.share_crew then
            M.bind (dumps_if_inputs inputs) (fun iv =>
            _add_attribute f (some sid) "inputs" iv)
          else M.pure ()) (fun _ =>
       M.bind (set_status_ok f (some sid)) (fun _ =>
       end_span f (some sid))))))))))
      ()
  else M.pure ()

/-- `Telemetry.deploy_signup_error_span()`. -/
def deploy_signup_error_span (f : Faults) (st : TState) : M Unit :=
  if st.ready then
    catchException
      (M.bind (start_span f "Deploy Signup Error") (fun sid =>
       M.bind (set_status_ok f (some sid)) (fun _ =>
       end_span f (some sid))))
      ()
  else M.pure ()

/-- `Telemetry.start_deployment_span(uuid)`: the `uuid` attribute only when a
(truthy) uuid is given. -/
def start_deployment_span (f : Faults) (st : TState) (uuid : Option String) : M Unit :=
  if st.ready then
    catchException
      (M.bind (start_span f "Start Deployment") (fun sid =>
       M.bind
         (match uuid with
          | some u => _add_attribute f (some sid) "uuid" (AttrValue.str u)
          | none => M.pure ()) (fun _ =>
       M.bind (set_status_ok f (some sid)) (fun _ =>
       end_span f (some sid)))))
      ()
  else M.pure ()

/-- `Telemetry.create_crew_deployment_span()`. -/
def create_crew_deployment_span (f : Faults) (st : TState) : M Unit :=
  if st.ready then
    catchException
      (M.bind (start_span f "Create Crew Deployment") (fun sid =>
       M.bind (set_status_ok f (some sid)) (fun _ =>
       end_span f (some sid))))
      ()
  else M.pure ()

/-- `Telemetry.get_crew_logs_span(uuid, log_type)`. -/
def get_crew_logs_span (f : Faults) (st : TState) (uuid : Option String) (log_type : String) : M Unit :=
  if st.ready then
    catchException
      (M.bind (start_span f "Get Crew Logs") (fun sid =>
       M.bind (_add_attribute f (some sid) "log_type" (AttrValue.str log_type)) (fun _ =>
       M.bind
         (match uuid with
          | some u => _add_attribute f (some sid) "uuid" (AttrValue.str u)
          | none => M.pure ()) (fun _ =>
       M.bind (set_status_ok f (some sid)) (fun _ =>
       end_span f (some sid))))))
      ()
  else M.pure ()

/-- `Telemetry.remove_crew_span(uuid)`. -/
def remove_crew_span (f : Faults) (st : TState) (uuid : Option String) : M Unit :=
  if st.ready then
    catchException
      (M.bind (start_span f "Remove Crew") (fun sid =>
       M.bind
         (match uuid with
          | some u => _add_attribute f (some sid) "uuid" (AttrValue.str u)
          | none => M.pure ()) (fun _ =>
       M.bind (set_status_ok f (some sid)) (fun _ =>
       end_span f (some sid)))))
      ()
  else M.pure ()

/-- `Telemetry.crew_execution_span(crew_data, inputs)`: only emitted when
both `ready` and `crew_data.get("share_crew")`; opens a "Crew Execution"
span, attaches, sets status, ends the span, and returns the handle; returns
`None` otherwise (also after a swallowed exception). -/
def crew_execution_span (env : Env) (f : Faults) (st : TState)
    (crew_data : CrewData) (inputs : Option JsonVal) : M (Option Nat) :=
  if st.ready && crew_data.share_crew then
    catchException
      (M.bind (start_span f "Crew Execution") (fun sid =>
       M.bind (_add_attribute f (some sid) "crewai_version" (AttrValue.str env.crewai_version)) (fun _ =>
       M.bind (_add_attribute f (some sid) "crew_key" crew_data.key) (fun _ =>
       M.bind (_add_attribute f (some sid) "crew_id" crew_data.id) (fun _ =>
       M.bind (dumps_if_inputs inputs) (fun iv =>
       M.bind (_add_attribute f (some sid) "crew_inputs" iv) (fun _ =>
       M.bind (json_dumps_list crew_data.agents) (fun a =>
       M.bind (_add_attribute f (some sid) "crew_agents" (AttrValue.str a)) (fun _ =>
       M.bind (json_dumps_list crew_data.tasks) (fun t =>
       M.bind (_add_attribute f (some sid) "crew_tasks" (AttrValue.str t)) (fun _ =>
       M.bind (set_status_ok f (some sid)) (fun _ =>
       M.bind (end_span f (some sid)) (fun _ =>
       M.pure (some sid))))))))))))))
      none
  else M.pure none

/-- The `json.dumps([{"id": ..., "description": ..., "output":
task.output.raw_output} for task in crew.tasks])` expression of `end_crew`:
raises (`AttributeError`) when some task has no output. -/
def tasks_output_dump (tasks : List TaskObj) : M String := fun w =>
  if tasks.all (fun t => t.output.isSome) then
    (MResult.ok (String.intercalate "; " (tasks.map (fun t =>
      "id=" ++ t.id ++ " description=" ++ t.description ++ " output=" ++
        (match t.output with | some o => o.raw_output | none => "")))), w)
  else (MResult.exc, w)

/-- `Telemetry.end_crew(crew, final_string_output)`: when `ready` and
`crew.share_crew`, attaches late-bound output attributes to
`crew._execution_span`, sets its status and ends it. -/
def end_crew (env : Env) (f : Faults) (st : TState)
    (crew : CrewObj) (final_string_output : String) : M Unit :=
  if st.ready && crew.share_crew then
    catchException
      (M.bind (_add_attribute f crew.execution_span "crewai_version" (AttrValue.str env.crewai_version)) (fun _ =>
       M.bind (_add_attribute f crew.execution_span "crew_output" (AttrValue.str final_string_output)) (fun _ =>
       M.bind (tasks_output_dump crew.tasks) (fun d =>
       M.bind (_add_attribute f crew.execution_span "crew_tasks_output" (AttrValue.str d)) (fun _ =>
       M.bind (set_status_ok f crew.execution_span) (fun _ =>
       end_span f crew.execution_span))))))
      ()
  else M.pure ()

/-- `Telemetry.flow_creation_span(flow_name)`. -/
def flow_creation_span (f : Faults) (st : TState) (flow_name : String) : M Unit :=
  if st.ready then
    catchException
      (M.bind (start_span f "Flow Creation") (fun sid =>
       M.bind (_add_attribute f (some sid) "flow_name" (AttrValue.str flow_name)) (fun _ =>
       M.bind (set_status_ok f (some sid)) (fun _ =>
       end_span f (some sid)))))
      ()
  else M.pure ()

/-- `Telemetry.flow_plotting_span(flow_name, node_names)`: attaches
`node_names` unconditionally (there is no share flag in its signature). -/
def flow_plotting_span (f : Faults) (st : TState) (flow_name : String) (node_names : List String) : M Unit :=
  if st.ready then
    catchException
      (M.bind (start_span f "Flow Plotting") (fun sid =>
       M.bind (_add_attribute f (some sid) "flow_name" (AttrValue.str flow_name)) (fun _ =>
       M.bind (_add_attribute f (some sid) "node_names" (AttrValue.str (json_dumps_strings node_names))) (fun _ =>
       M.bind (set_status_ok f (some sid)) (fun _ =>
       end_span f (some sid))))))
      ()
  else M.pure ()

/-- `Telemetry.flow_execution_span(flow_name, node_names)`: attaches
`node_names` unconditionally (there is no share flag in its signature). -/
def flow_execution_span (f : Faults) (st : TState) (flow_name : String) (node_names : List String) : M Unit :=
  if st.ready then
    catchException
      (M.bind (start_span f "Flow Execution") (fun sid =>
       M.bind (_add_attribute f (some sid) "flow_name" (AttrValue.str flow_name)) (fun _ =>
       M.bind (_add_attribute f (some sid) "node_names" (AttrValue.str (json_dumps_strings node_names))) (fun _ =>
       M.bind (set_status_ok f (some sid)) (fun _ =>
       end_span f (some sid))))))
      ()
  else M.pure ()

/-- The attribute keys attached in an effect log, in order. -/
def attrKeys : List Effect → List String
  | [] => []
  | Effect.attr _ k _ :: rest => k :: attrKeys rest
  | Effect.started _ _ :: rest => attrKeys rest
  | Effect.statusOk _ :: rest => attrKeys rest
  | Effect.ended _ :: rest => attrKeys rest

/-- Every emission method has the shape `if gate then try: body except
Exception: pass-with-default else default`; such a call never raises. -/
theorem gated_isOk {α : Type} (c : Bool) (body : M α) (d : α) (w : World) :
    (((if c then catchException body d else M.pure d) : M α) w).1.isOk = true := by
  cases c with
  | false => rfl
  | true =>
    show ((catchException body d) w).1.isOk = true
    unfold catchException
    rcases h : body w with ⟨r, w'⟩
    cases r <;> simp [h, MResult.isOk]

/-- `json.dumps` of a list succeeds once every element serializes. -/
theorem json_dumps_list_ok (vs : List JsonVal) (h : vs.all (fun v => v.serializable) = true) :
    json_dumps_list vs = M.pure ("[" ++ String.intercalate ", " (vs.map (fun v => v.dumped)) ++ "]") := by
  funext w
  simp [json_dumps_list, h, M.pure]

/-- `json.dumps(inputs)` succeeds on a present, serializable `inputs`. -/
theorem dumps_if_inputs_some_ok (j : JsonVal) (h : j.serializable = true) :
    dumps_if_inputs (some j) = M.pure (AttrValue.str j.dumped) := by
  funext w
  simp [dumps_if_inputs, h, M.pure]

/-- `json.dumps(inputs) if inputs else None` succeeds whenever a present
`inputs` serializes. -/
theorem dumps_if_inputs_ok (inputs : Option JsonVal)
    (h : inputs.all (fun v => v.serializable) = true) :
    dumps_if_inputs inputs = M.pure (match inputs with
      | none => AttrValue.noneV
      | some j => AttrValue.str j.dumped) := by
  rcases inputs with _ | ⟨j⟩
  · rfl
  · simp only [Option.all] at h
    funext w
    simp [dumps_if_inputs, h, M.pure]

/-- The `end_crew` task-output serialization succeeds once every task has an
output. -/
theorem tasks_output_dump_ok (ts : List TaskObj)
    (h : ts.all (fun t => t.output.isSome) = true) :
    tasks_output_dump ts = M.pure (String.intercalate "; " (ts.map (fun t =>
      "id=" ++ t.id ++ " description=" ++ t.description ++ " output=" ++
        (match t.output with | some o => o.raw_output | none => "")))) := by
  funext w
  simp [tasks_output_dump, h, M.pure]

/-- A concrete environment used by witnesses and counterexamples. -/
def env0 : Env := ⟨"3.11.0", "Linux-x86", "6.1", "Linux", "v1", AttrValue.int 8, "0.60.0"⟩

/-- A concrete serialized crew dictionary with `share_crew = True` whose
agents, tasks and inputs all serialize. -/
def cdGood : CrewData :=
  ⟨AttrValue.str "0.60.0", AttrValue.str "ckey", AttrValue.str "cid", AttrValue.str "sequential",
   AttrValue.boolean false, [⟨true, "t1"⟩], [⟨true, "a1"⟩], true⟩

/-- Like `cdGood` but the one agent is unserializable (e.g. cyclic). -/
def cdBadAgent : CrewData :=
  ⟨AttrValue.str "0.60.0", AttrValue.str "ckey", AttrValue.str "cid", AttrValue.str "sequential",
   AttrValue.boolean false, [⟨true, "t1"⟩], [⟨false, "a1"⟩], true⟩

/-- Like `cdBadAgent` but with `share_crew = False`. -/
def cdBadAgentNoShare : CrewData :=
  ⟨AttrValue.str "0.60.0", AttrValue.str "ckey", AttrValue.str "cid", AttrValue.str "sequential",
   AttrValue.boolean false, [⟨true, "t1"⟩], [⟨false, "a1"⟩], false⟩

/-- The attribute schema of `crew_creation` when `share_crew` is true. -/
def ccShareKeys : List String :=
  ["crewai_version", "python_version", "crew_key", "crew_id", "crew_process",
   "crew_memory", "crew_number_of_tasks", "crew_number_of_agents", "crew_agents",
   "crew_tasks", "platform", "platform_release", "platform_system",
   "platform_version", "cpus", "crew_inputs"]


/-- C1: every public emission operation (`crew_creation`, `task_started`,
`task_ended`, the tool-usage variants, the test, deployment and flow spans,
`crew_execution_span`, `end_crew`), on every availability state, every fault
oracle, every argument — including `task_ended` called with an absent
(`None`) handle, covered by `span : Option Nat` — returns without raising an
exception to its caller. -/
theorem emission_never_raises :
    ∀ (env : Env) (f : Faults) (st : TState) (w : World) (cd : CrewData)
      (inputs : Option JsonVal) (crew : CrewObj) (task : TaskObj) (span : Option Nat)
      (llm : Option LLMObj) (tool_name : String) (attempts : Int) (quality : String)
      (exec_time iterations : Int) (model_name : String) (uuid : Option String)
      (log_type fname : String) (node_names : List String) (final_out : String),
      ((crew_creation env f st cd inputs w).1.isOk = true)
    ∧ ((task_started f st crew task w).1.isOk = true)
    ∧ ((task_ended f st span task crew w).1.isOk = true)
    ∧ ((tool_repeated_usage env f st llm tool_name attempts w).1.isOk = true)
    ∧ ((tool_usage env f st llm tool_name attempts w).1.isOk = true)
    ∧ ((tool_usage_error env f st llm w).1.isOk = true)
    ∧ ((individual_test_result_span env f st crew quality exec_time model_name w).1.isOk = true)
    ∧ ((test_execution_span env f st crew iterations inputs model_name w).1.isOk = true)
    ∧ ((deploy_signup_error_span f st w).1.isOk = true)
    ∧ ((start_deployment_span f st uuid w).1.isOk = true)
    ∧ ((create_crew_deployment_span f st w).1.isOk = true)
    ∧ ((get_crew_logs_span f st uuid log_type w).1.isOk = true)
    ∧ ((remove_crew_span f st uuid w).1.isOk = true)
    ∧ ((crew_execution_span env f st cd inputs w).1.isOk = true)
    ∧ ((end_crew env f st crew final_out w).1.isOk = true)
    ∧ ((flow_creation_span f st fname w).1.isOk = true)
    ∧ ((flow_plotting_span f st fname node_names w).1.isOk = true)
    ∧ ((flow_execution_span f st fname node_names w).1.isOk = true) := by
  intro env f st w cd inputs crew task span llm tool_name attempts quality
    exec_time iterations model_name uuid log_type fname node_names final_out
  exact ⟨gated_isOk st.ready _ _ w, gated_isOk st.ready _ _ w, gated_isOk st.ready _ _ w,
    gated_isOk st.ready _ _ w, gated_isOk st.ready _ _ w, gated_isOk st.ready _ _ w,
    gated_isOk st.ready _ _ w, gated_isOk st.ready _ _ w, gated_isOk st.ready _ _ w,
    gated_isOk st.ready _ _ w, gated_isOk st.ready _ _ w, gated_isOk st.ready _ _ w,
    gated_isOk st.ready _ _ w, gated_isOk (st.ready && cd.share_crew) _ _ w,
    gated_isOk (st.ready && crew.share_crew) _ _ w, gated_isOk st.ready _ _ w,
    gated_isOk st.ready _ _ w, gated_isOk st.ready _ _ w⟩

/-- C2: with the availability gate down (`ready = false`), every catalog
emission is a no-op: it returns its default result, leaves the exporter
world (span counter and effect log) untouched, and raises nothing. -/
theorem not_ready_noop :
    ∀ (env : Env) (f : Faults) (b : Bool) (w : World) (cd : CrewData)
      (inputs : Option JsonVal) (crew : CrewObj) (task : TaskObj) (span : Option Nat)
      (llm : Option LLMObj) (tool_name : String) (attempts : Int) (quality : String)
      (exec_time iterations : Int) (model_name : String) (uuid : Option String)
      (log_type fname : String) (node_names : List String) (final_out : String),
      (crew_creation env f ⟨false, b⟩ cd inputs w = (MResult.ok (), w))
    ∧ (task_started f ⟨false, b⟩ crew task w = (MResult.ok none, w))
    ∧ (task_ended f ⟨false, b⟩ span task crew w = (MResult.ok (), w))
    ∧ (tool_repeated_usage env f ⟨false, b⟩ llm tool_name attempts w = (MResult.ok (), w))
    ∧ (tool_usage env f ⟨false, b⟩ llm tool_name attempts w = (MResult.ok (), w))
    ∧ (tool_usage_error env f ⟨false, b⟩ llm w = (MResult.ok (), w))
    ∧ (individual_test_result_span env f ⟨false, b⟩ crew quality exec_time model_name w = (MResult.ok (), w))
    ∧ (test_execution_span env f ⟨false, b⟩ crew iterations inputs model_name w = (MResult.ok (), w))
    ∧ (deploy_signup_error_span f ⟨false, b⟩ w = (MResult.ok (), w))
    ∧ (start_deployment_span f ⟨false, b⟩ uuid w = (MResult.ok (), w))
    ∧ (create_crew_deployment_span f ⟨false, b⟩ w = (MResult.ok (), w))
    ∧ (get_crew_logs_span f ⟨false, b⟩ uuid log_type w = (MResult.ok (), w))
    ∧ (remove_crew_span f ⟨false, b⟩ uuid w = (MResult.ok (), w))
    ∧ (crew_execution_span env f ⟨false, b⟩ cd inputs w = (MResult.ok none, w))
    ∧ (end_crew env f ⟨false, b⟩ crew final_out w = (MResult.ok (), w))
    ∧ (flow_creation_span f ⟨false, b⟩ fname w = (MResult.ok (), w))
    ∧ (flow_plotting_span f ⟨false, b⟩ fname node_names w = (MResult.ok (), w))
    ∧ (flow_execution_span f ⟨false, b⟩ fname node_names w = (MResult.ok (), w)) := by
  intro env f b w cd inputs crew task span llm tool_name attempts quality
    exec_time iterations model_name uuid log_type fname node_names final_out
  exact ⟨rfl, rfl, rfl, rfl, rfl, rfl, rfl, rfl, rfl, rfl, rfl, rfl, rfl, rfl, rfl, rfl,
    rfl, rfl⟩

/-- C3 counterexample: the claimed strict subset fails at a raw input that
does not serialize: with `share_crew = true` and a cyclic agent,
`json.dumps(agents)` raises into the outer `except`, so `crew_creation`
attaches exactly the always-tier keys — the same key set as the
`share_crew = false` run — and the inclusion is not strict. -/
theorem redaction_strictness_fails_unserializable :
    (attrKeys ((crew_creation env0 noFaults ⟨true, false⟩ cdBadAgentNoShare none ⟨0, []⟩).2.log)).toFinset
      = (attrKeys ((crew_creation env0 noFaults ⟨true, false⟩ cdBadAgent none ⟨0, []⟩).2.log)).toFinset
  ∧ ¬ (attrKeys ((crew_creation env0 noFaults ⟨true, false⟩ cdBadAgentNoShare none ⟨0, []⟩).2.log)).toFinset
      ⊂ (attrKeys ((crew_creation env0 noFaults ⟨true, false⟩ cdBadAgent none ⟨0, []⟩).2.log)).toFinset := by
  refine ⟨?_, ?_⟩ <;> decide

set_option maxHeartbeats 6000000 in
/-- C3 amended: for every event with opt-in attributes (`crew_creation`,
`task_started`, `task_ended`, `test_execution_span`, `crew_execution_span`,
`end_crew`) and every raw input data whose opt-in serializations succeed
(with the span handle present for the handle-closing events), the set of
attribute keys attached with the share flag false is a strict subset of the
set attached with the share flag true: sharing removes no always-tier key,
and no opt-in key appears without sharing.  Without the serializability
proviso the inclusion can degenerate to equality (see the
counterexample). -/
theorem redaction_monotone
    (env : Env) (b : Bool) (cv k i p m : AttrValue) (tasks agents : List JsonVal)
    (inputs : Option JsonVal)
    (hagents : agents.all (fun v => v.serializable) = true)
    (htasks : tasks.all (fun v => v.serializable) = true)
    (hinputs : inputs.all (fun v => v.serializable) = true)
    (ck ci : String) (cts : List TaskObj) (ces : Option Nat) (task : TaskObj)
    (iterations : Int) (model_name : String) (cts2 : List TaskObj)
    (houts : cts2.all (fun t => t.output.isSome) = true)
    (final_out : String) :
    (attrKeys ((crew_creation env noFaults ⟨true, b⟩ ⟨cv, k, i, p, m, tasks, agents, false⟩ inputs ⟨0, []⟩).2.log)).toFinset
      ⊂ (attrKeys ((crew_creation env noFaults ⟨true, b⟩ ⟨cv, k, i, p, m, tasks, agents, true⟩ inputs ⟨0, []⟩).2.log)).toFinset
  ∧ (attrKeys ((task_started noFaults ⟨true, b⟩ ⟨ck, ci, false, cts, ces⟩ task ⟨0, []⟩).2.log)).toFinset
      ⊂ (attrKeys ((task_started noFaults ⟨true, b⟩ ⟨ck, ci, true, cts, ces⟩ task ⟨0, []⟩).2.log)).toFinset
  ∧ (attrKeys ((task_ended noFaults ⟨true, b⟩ (some 0) task ⟨ck, ci, false, cts, ces⟩ ⟨1, []⟩).2.log)).toFinset
      ⊂ (attrKeys ((task_ended noFaults ⟨true, b⟩ (some 0) task ⟨ck, ci, true, cts, ces⟩ ⟨1, []⟩).2.log)).toFinset
  ∧ (attrKeys ((test_execution_span env noFaults ⟨true, b⟩ ⟨ck, ci, false, cts, ces⟩ iterations inputs model_name ⟨0, []⟩).2.log)).toFinset
      ⊂ (attrKeys ((test_execution_span env noFaults ⟨true, b⟩ ⟨ck, ci, true, cts, ces⟩ iterations inputs model_name ⟨0, []⟩).2.log)).toFinset
  ∧ (attrKeys ((crew_execution_span env noFaults ⟨true, b⟩ ⟨cv, k, i, p, m, tasks, agents, false⟩ inputs ⟨0, []⟩).2.log)).toFinset
      ⊂ (attrKeys ((crew_execution_span env noFaults ⟨true, b⟩ ⟨cv, k, i, p, m, tasks, agents, true⟩ inputs ⟨0, []⟩).2.log)).toFinset
  ∧ (attrKeys ((end_crew env noFaults ⟨true, b⟩ ⟨ck, ci, false, cts2, some 0⟩ final_out ⟨1, []⟩).2.log)).toFinset
      ⊂ (attrKeys ((end_crew env noFaults ⟨true, b⟩ ⟨ck, ci, true, cts2, some 0⟩ final_out ⟨1, []⟩).2.log)).toFinset := by
  refine ⟨?_, ?_, ?_, ?_, ?_, ?_⟩
  · have hF : attrKeys ((crew_creation env noFaults ⟨true, b⟩ ⟨cv, k, i, p, m, tasks, agents, false⟩ inputs ⟨0, []⟩).2.log)
        = ["crewai_version", "python_version", "crew_key", "crew_id", "crew_process",
           "crew_memory", "crew_number_of_tasks", "crew_number_of_agents"] := rfl
    have hT : attrKeys ((crew_creation env noFaults ⟨true, b⟩ ⟨cv, k, i, p, m, tasks, agents, true⟩ inputs ⟨0, []⟩).2.log)
        = ccShareKeys := by
      unfold crew_creation
      simp only [json_dumps_list_ok _ hagents, json_dumps_list_ok _ htasks,
        dumps_if_inputs_ok _ hinputs]
      rfl
    rw [hF, hT]
    decide
  · have hF : attrKeys ((task_started noFaults ⟨true, b⟩ ⟨ck, ci, false, cts, ces⟩ task ⟨0, []⟩).2.log)
        = ["crew_key", "crew_id", "task_key", "task_id",
           "crew_key", "crew_id", "task_key", "task_id"] := rfl
    have hT : attrKeys ((task_started noFaults ⟨true, b⟩ ⟨ck, ci, true, cts, ces⟩ task ⟨0, []⟩).2.log)
        = ["crew_key", "crew_id", "task_key", "task_id",
           "formatted_description", "formatted_expected_output",
           "crew_key", "crew_id", "task_key", "task_id",
           "formatted_description", "formatted_expected_output"] := rfl
    rw [hF, hT]
    decide
  · have hF : attrKeys ((task_ended noFaults ⟨true, b⟩ (some 0) task ⟨ck, ci, false, cts, ces⟩ ⟨1, []⟩).2.log)
        = [] := rfl
    have hT : attrKeys ((task_ended noFaults ⟨true, b⟩ (some 0) task ⟨ck, ci, true, cts, ces⟩ ⟨1, []⟩).2.log)
        = ["task_output"] := rfl
    rw [hF, hT]
    decide
  · have hF : attrKeys ((test_execution_span env noFaults ⟨true, b⟩ ⟨ck, ci, false, cts, ces⟩ iterations inputs model_name ⟨0, []⟩).2.log)
        = ["crewai_version", "crew_key", "crew_id", "iterations", "model_name"] := rfl
    have hT : attrKeys ((test_execution_span env noFaults ⟨true, b⟩ ⟨ck, ci, true, cts, ces⟩ iterations inputs model_name ⟨0, []⟩).2.log)
        = ["crewai_version", "crew_key", "crew_id", "iterations", "model_name", "inputs"] := by
      unfold test_execution_span
      simp only [dumps_if_inputs_ok _ hinputs]
      rfl
    rw [hF, hT]
    decide
  · have hF : attrKeys ((crew_execution_span env noFaults ⟨true, b⟩ ⟨cv, k, i, p, m, tasks, agents, false⟩ inputs ⟨0, []⟩).2.log)
        = [] := rfl
    have hT : attrKeys ((crew_execution_span env noFaults ⟨true, b⟩ ⟨cv, k, i, p, m, tasks, agents, true⟩ inputs ⟨0, []⟩).2.log)
        = ["crewai_version", "crew_key", "crew_id", "crew_inputs", "crew_agents", "crew_tasks"] := by
      unfold crew_execution_span
      simp only [json_dumps_list_ok _ hagents, json_dumps_list_ok _ htasks,
        dumps_if_inputs_ok _ hinputs]
      rfl
    rw [hF, hT]
    decide
  · have hF : attrKeys ((end_crew env noFaults ⟨true, b⟩ ⟨ck, ci, false, cts2, some 0⟩ final_out ⟨1, []⟩).2.log)
        = [] := rfl
    have hT : attrKeys ((end_crew env noFaults ⟨true, b⟩ ⟨ck, ci, true, cts2, some 0⟩ final_out ⟨1, []⟩).2.log)
        = ["crewai_version", "crew_output", "crew_tasks_output"] := by
      unfold end_crew
      simp only [tasks_output_dump_ok _ houts]
      rfl
    rw [hF, hT]
    decide

/-- C3 witness: the strict key-subset relation at a concrete environment,
crew dictionary, crew and task (shown for `crew_creation` and `end_crew`;
the proof instantiates the theorem, discharging every serializability
hypothesis on concrete data). -/
theorem redaction_monotone_witness :
    ((attrKeys ((crew_creation env0 noFaults ⟨true, false⟩
        ⟨AttrValue.str "0.60.0", AttrValue.str "ckey", AttrValue.str "cid",
         AttrValue.str "sequential", AttrValue.boolean false,
         [⟨true, "t1"⟩], [⟨true, "a1"⟩], false⟩ (some ⟨true, "inp"⟩) ⟨0, []⟩).2.log)).toFinset
      ⊂ (attrKeys ((crew_creation env0 noFaults ⟨true, false⟩
        ⟨AttrValue.str "0.60.0", AttrValue.str "ckey", AttrValue.str "cid",
         AttrValue.str "sequential", AttrValue.boolean false,
         [⟨true, "t1"⟩], [⟨true, "a1"⟩], true⟩ (some ⟨true, "inp"⟩) ⟨0, []⟩).2.log)).toFinset)
  ∧ ((attrKeys ((end_crew env0 noFaults ⟨true, false⟩
        ⟨"ck", "ci", false, [⟨"tk", "ti", "d", "e", some ⟨"raw", "rawout"⟩⟩], some 0⟩ "final" ⟨1, []⟩).2.log)).toFinset
      ⊂ (attrKeys ((end_crew env0 noFaults ⟨true, false⟩
        ⟨"ck", "ci", true, [⟨"tk", "ti", "d", "e", some ⟨"raw", "rawout"⟩⟩], some 0⟩ "final" ⟨1, []⟩).2.log)).toFinset) :=
  ⟨(redaction_monotone env0 false (AttrValue.str "0.60.0") (AttrValue.str "ckey")
      (AttrValue.str "cid") (AttrValue.str "sequential") (AttrValue.boolean false)
      [⟨true, "t1"⟩] [⟨true, "a1"⟩] (some ⟨true, "inp"⟩) rfl rfl rfl
      "ck" "ci" [] none ⟨"tk", "ti", "d", "e", none⟩ 3 "gpt"
      [⟨"tk", "ti", "d", "e", some ⟨"raw", "rawout"⟩⟩] rfl "final").1,
   (redaction_monotone env0 false (AttrValue.str "0.60.0") (AttrValue.str "ckey")
      (AttrValue.str "cid") (AttrValue.str "sequential") (AttrValue.boolean false)
      [⟨true, "t1"⟩] [⟨true, "a1"⟩] (some ⟨true, "inp"⟩) rfl rfl rfl
      "ck" "ci" [] none ⟨"tk", "ti", "d", "e", none⟩ 3 "gpt"
      [⟨"tk", "ti", "d", "e", some ⟨"raw", "rawout"⟩⟩] rfl "final").2.2.2.2.2⟩

set_option maxHeartbeats 1000000 in
/-- C4: with `ready = true` and the share flag false, `crew_execution_span`
emits nothing at all — result `None`, exporter world untouched — whereas an
ordinary event such as `crew_creation` still opens its span (with reduced
attributes) under the same share flag. -/
theorem execution_span_share_gate :
    (∀ (env : Env) (f : Faults) (b : Bool) (cd : CrewData) (inputs : Option JsonVal) (w : World),
       cd.share_crew = false →
       crew_execution_span env f ⟨true, b⟩ cd inputs w = (MResult.ok none, w))
  ∧ (∀ (env : Env) (b : Bool) (cv k i p m : AttrValue) (tasks agents : List JsonVal)
       (inputs : Option JsonVal),
       Effect.started 0 "Crew Created"
         ∈ (crew_creation env noFaults ⟨true, b⟩ ⟨cv, k, i, p, m, tasks, agents, false⟩ inputs ⟨0, []⟩).2.log) := by
  constructor
  · intro env f b cd inputs w h
    rcases cd with ⟨cv, k, i, p, m, tasks, agents, s⟩
    cases h
    rfl
  · intro env b cv k i p m tasks agents inputs
    have hlog : (crew_creation env noFaults ⟨true, b⟩ ⟨cv, k, i, p, m, tasks, agents, false⟩ inputs ⟨0, []⟩).2.log
        = [Effect.started 0 "Crew Created",
           Effect.attr 0 "crewai_version" cv,
           Effect.attr 0 "python_version" (AttrValue.str env.python_version),
           Effect.attr 0 "crew_key" k,
           Effect.attr 0 "crew_id" i,
           Effect.attr 0 "crew_process" p,
           Effect.attr 0 "crew_memory" m,
           Effect.attr 0 "crew_number_of_tasks" (AttrValue.int tasks.length),
           Effect.attr 0 "crew_number_of_agents" (AttrValue.int agents.length),
           Effect.statusOk 0, Effect.ended 0] := rfl
    rw [hlog]
    exact List.mem_cons_self _ _

/-- C4 witness: the stronger gate and the contrast event at concrete
inputs. -/
theorem execution_span_share_gate_witness :
    crew_execution_span env0 noFaults ⟨true, false⟩
      ⟨AttrValue.str "0.60.0", AttrValue.str "ckey", AttrValue.str "cid",
       AttrValue.str "sequential", AttrValue.boolean false,
       [⟨true, "t1"⟩], [⟨true, "a1"⟩], false⟩ none ⟨0, []⟩ = (MResult.ok none, ⟨0, []⟩)
  ∧ Effect.started 0 "Crew Created"
      ∈ (crew_creation env0 noFaults ⟨true, false⟩
          ⟨AttrValue.str "0.60.0", AttrValue.str "ckey", AttrValue.str "cid",
           AttrValue.str "sequential", AttrValue.boolean false,
           [⟨true, "t1"⟩], [⟨true, "a1"⟩], false⟩ none ⟨0, []⟩).2.log :=
  ⟨execution_span_share_gate.1 env0 noFaults false
      ⟨AttrValue.str "0.60.0", AttrValue.str "ckey", AttrValue.str "cid",
       AttrValue.str "sequential", AttrValue.boolean false,
       [⟨true, "t1"⟩], [⟨true, "a1"⟩], false⟩ none ⟨0, []⟩ rfl,
   execution_span_share_gate.2 env0 false (AttrValue.str "0.60.0") (AttrValue.str "ckey")
      (AttrValue.str "cid") (AttrValue.str "sequential") (AttrValue.boolean false)
      [⟨true, "t1"⟩] [⟨true, "a1"⟩] none⟩

/-- C5 counterexample: with `share_crew = true` and an agent list whose
serialization fails (`cdBadAgent`), the failure of that one value is not
dropped independently: the enclosing "Crew Created" span is aborted — never
ended — and sibling attributes (e.g. `platform`) are never attached, though
the call still returns without raising. -/
theorem serialization_failure_aborts_span :
    "platform" ∉ attrKeys ((crew_creation env0 noFaults ⟨true, false⟩ cdBadAgent none ⟨0, []⟩).2.log)
  ∧ Effect.ended 0 ∉ (crew_creation env0 noFaults ⟨true, false⟩ cdBadAgent none ⟨0, []⟩).2.log
  ∧ (crew_creation env0 noFaults ⟨true, false⟩ cdBadAgent none ⟨0, []⟩).1 = MResult.ok () := by
  refine ⟨?_, ?_, ?_⟩ <;> decide

/-- C5 amended: failure of the guarded attachment (`span.set_attribute`
inside `_add_attribute`) of any single attribute of the `crew_creation`
schema is dropped independently — the span is still ended and every other
schema attribute is still attached.  (A `json.dumps` serialization failure,
by contrast, aborts the remainder of the emission: see the
counterexample.) -/
theorem attach_failure_independent :
    ∀ k ∈ ccShareKeys,
      Effect.ended 0 ∈ (crew_creation env0 (failOnly k) ⟨true, false⟩ cdGood (some ⟨true, "inp"⟩) ⟨0, []⟩).2.log
    ∧ ∀ k2 ∈ ccShareKeys, k2 ≠ k →
        k2 ∈ attrKeys ((crew_creation env0 (failOnly k) ⟨true, false⟩ cdGood (some ⟨true, "inp"⟩) ⟨0, []⟩).2.log) := by
  decide

/-- C5 witness: attachment of `platform` failing alone still ends the span
and still attaches the sibling `cpus`. -/
theorem attach_failure_independent_witness :
    Effect.ended 0 ∈ (crew_creation env0 (failOnly "platform") ⟨true, false⟩ cdGood (some ⟨true, "inp"⟩) ⟨0, []⟩).2.log
  ∧ "cpus" ∈ attrKeys ((crew_creation env0 (failOnly "platform") ⟨true, false⟩ cdGood (some ⟨true, "inp"⟩) ⟨0, []⟩).2.log) :=
  ⟨(attach_failure_independent "platform" (by decide)).1,
   (attach_failure_independent "platform" (by decide)).2 "cpus" (by decide) (by decide)⟩

/-- C6 (code evaluated at the failing input): with `ready = true` and
`share_crew = true`, `crew_execution_span` itself sets the status and calls
`span.end()` on the "Crew Execution" span before returning its handle, so
the handle `end_crew` later receives is already closed; the claim's
open-handle protocol does not hold on the code. -/
theorem execution_span_ended_before_return :
    (crew_execution_span env0 noFaults ⟨true, false⟩ cdGood none ⟨0, []⟩).1 = MResult.ok (some 0)
  ∧ Effect.ended 0 ∈ (crew_execution_span env0 noFaults ⟨true, false⟩ cdGood none ⟨0, []⟩).2.log
  ∧ Effect.ended 0 ∈ (end_crew env0 noFaults ⟨true, false⟩
      ⟨"ckey", "cid", true, [⟨"tk", "ti", "d", "e", some ⟨"raw", "rawout"⟩⟩], some 0⟩ "final" ⟨1, []⟩).2.log := by
  refine ⟨?_, ?_, ?_⟩ <;> decide

/-- C7: a termination-class signal (`SystemExit`, `KeyboardInterrupt`,
`GeneratorExit`, `CancelledError`) raised while `Telemetry.__init__` builds
the exporter pipeline is re-raised to the caller, not converted into
`ready = false`; every other failure is swallowed and leaves
`ready = false`; a fault-free initialization yields `ready = true`. -/
theorem init_signal_propagation :
    ∀ e : PyExc,
      (e.isTerminal = true → telemetry_init (some e) = InitResult.raised e)
    ∧ (e.isTerminal = false → telemetry_init (some e) = InitResult.state ⟨false, false⟩)
    ∧ telemetry_init none = InitResult.state ⟨true, false⟩ := by
  intro e
  refine ⟨fun h => ?_, fun h => ?_, rfl⟩ <;> simp [telemetry_init, h]

/-- C7 witness: a `KeyboardInterrupt` during initialization propagates; an
ordinary exception is converted to `ready = false`. -/
theorem init_signal_propagation_witness :
    telemetry_init (some PyExc.keyboardInterrupt) = InitResult.raised PyExc.keyboardInterrupt
  ∧ telemetry_init (some PyExc.ordinary) = InitResult.state ⟨false, false⟩ :=
  ⟨(init_signal_propagation PyExc.keyboardInterrupt).1 rfl,
   (init_signal_propagation PyExc.ordinary).2.1 rfl⟩

/-- C8: the availability flags are demotion-only after initialization:
`set_tracer` (the only state-mutating operation; the emission methods read
`ready` but never write either flag) never promotes `ready` from false to
true, is a no-op once `trace_set` is true (so `trace_set` is set at most
once) or when not ready, installs the tracer exactly once on success, and on
installation failure demotes `ready` (and `trace_set`) to false. -/
theorem ready_demotion_only :
    ∀ (fail : Bool) (st : TState),
      ((set_tracer fail st).ready = true → st.ready = true)
    ∧ (st.trace_set = true → set_tracer fail st = st)
    ∧ (st.ready = false → set_tracer fail st = st)
    ∧ (st.ready = true → st.trace_set = false → fail = false → set_tracer fail st = ⟨true, true⟩)
    ∧ (st.ready = true → st.trace_set = false → fail = true → set_tracer fail st = ⟨false, false⟩) := by
  intro fail st
  rcases st with ⟨r, t⟩
  cases r <;> cases t <;> cases fail <;> decide

/-- C8 witness: a failing installation demotes `⟨true, false⟩` to
`⟨false, false⟩`; a second call after a successful one is a no-op. -/
theorem ready_demotion_only_witness :
    set_tracer true ⟨true, false⟩ = ⟨false, false⟩
  ∧ set_tracer false ⟨true, true⟩ = ⟨true, true⟩ :=
  ⟨(ready_demotion_only true ⟨true, false⟩).2.2.2.2 rfl rfl rfl,
   (ready_demotion_only false ⟨true, true⟩).2.1 rfl⟩

/-- C9 counterexample: `flow_execution_span` takes no share flag at all and
attaches the `node_names` attribute on every emission — here concretely with
no sharing anywhere in the input state — so the node-name list is not
restricted to an opt-in tier. -/
theorem node_names_without_sharing :
    Effect.attr 0 "node_names" (AttrValue.str "[\"n1\"]")
      ∈ (flow_execution_span noFaults ⟨true, false⟩ "myflow" ["n1"] ⟨0, []⟩).2.log := by
  decide

/-- C9 amended: the node-name list is always-tier for the flow events that
carry it: `flow_plotting_span` and `flow_execution_span` attach `node_names`
unconditionally (their signatures have no share flag), and
`flow_creation_span` takes no node names and never attaches a `node_names`
attribute. -/
theorem node_names_always_tier :
    ∀ (b : Bool) (fname : String) (names : List String),
      Effect.attr 0 "node_names" (AttrValue.str (json_dumps_strings names))
        ∈ (flow_execution_span noFaults ⟨true, b⟩ fname names ⟨0, []⟩).2.log
    ∧ Effect.attr 0 "node_names" (AttrValue.str (json_dumps_strings names))
        ∈ (flow_plotting_span noFaults ⟨true, b⟩ fname names ⟨0, []⟩).2.log
    ∧ "node_names" ∉ attrKeys ((flow_creation_span noFaults ⟨true, b⟩ fname ⟨0, []⟩).2.log) := by
  intro b fname names
  have h1 : (flow_execution_span noFaults ⟨true, b⟩ fname names ⟨0, []⟩).2.log
      = [Effect.started 0 "Flow Execution", Effect.attr 0 "flow_name" (AttrValue.str fname),
         Effect.attr 0 "node_names" (AttrValue.str (json_dumps_strings names)),
         Effect.statusOk 0, Effect.ended 0] := rfl
  have h2 : (flow_plotting_span noFaults ⟨true, b⟩ fname names ⟨0, []⟩).2.log
      = [Effect.started 0 "Flow Plotting", Effect.attr 0 "flow_name" (AttrValue.str fname),
         Effect.attr 0 "node_names" (AttrValue.str (json_dumps_strings names)),
         Effect.statusOk 0, Effect.ended 0] := rfl
  have h3 : attrKeys ((flow_creation_span noFaults ⟨true, b⟩ fname ⟨0, []⟩).2.log)
      = ["flow_name"] := rfl
  rw [h1, h2, h3]
  refine ⟨by simp, by simp, by decide⟩

set_option maxHeartbeats 2000000 in
/-- C10: with `ready = true` and no faults, `task_started` first emits and
fully closes a "Task Created" span (same crew/task identifier attributes,
plus description and expected output when sharing), then opens a separate
"Task Execution" span with the same attributes; the handle it returns is the
"Task Execution" span, which is left open. -/
theorem task_started_two_spans :
    ∀ (b : Bool) (crew : CrewObj) (task : TaskObj),
      (task_started noFaults ⟨true, b⟩ crew task ⟨0, []⟩).1 = MResult.ok (some 1)
    ∧ (task_started noFaults ⟨true, b⟩ crew task ⟨0, []⟩).2.log =
        [Effect.started 0 "Task Created",
         Effect.attr 0 "crew_key" (AttrValue.str crew.key),
         Effect.attr 0 "crew_id" (AttrValue.str crew.id),
         Effect.attr 0 "task_key" (AttrValue.str task.key),
         Effect.attr 0 "task_id" (AttrValue.str task.id)]
        ++ (if crew.share_crew then
              [Effect.attr 0 "formatted_description" (AttrValue.str task.description),
               Effect.attr 0 "formatted_expected_output" (AttrValue.str task.expected_output)]
            else [])
        ++ [Effect.statusOk 0, Effect.ended 0, Effect.started 1 "Task Execution",
            Effect.attr 1 "crew_key" (AttrValue.str crew.key),
            Effect.attr 1 "crew_id" (AttrValue.str crew.id),
            Effect.attr 1 "task_key" (AttrValue.str task.key),
            Effect.attr 1 "task_id" (AttrValue.str task.id)]
        ++ (if crew.share_crew then
              [Effect.attr 1 "formatted_description" (AttrValue.str task.description),
               Effect.attr 1 "formatted_expected_output" (AttrValue.str task.expected_output)]
            else [])
    ∧ Effect.ended 1 ∉ (task_started noFaults ⟨true, b⟩ crew task ⟨0, []⟩).2.log := by
  intro b crew task
  rcases crew with ⟨ck, ci, cs, cts, ces⟩
  cases cs with
  | false =>
    refine ⟨rfl, rfl, ?_⟩
    have h : (task_started noFaults ⟨true, b⟩ ⟨ck, ci, false, cts, ces⟩ task ⟨0, []⟩).2.log =
        [Effect.started 0 "Task Created",
         Effect.attr 0 "crew_key" (AttrValue.str ck),
         Effect.attr 0 "crew_id" (AttrValue.str ci),
         Effect.attr 0 "task_key" (AttrValue.str task.key),
         Effect.attr 0 "task_id" (AttrValue.str task.id),
         Effect.statusOk 0, Effect.ended 0, Effect.started 1 "Task Execution",
         Effect.attr 1 "crew_key" (AttrValue.str ck),
         Effect.attr 1 "crew_id" (AttrValue.str ci),
         Effect.attr 1 "task_key" (AttrValue.str task.key),
         Effect.attr 1 "task_id" (AttrValue.str task.id)] := rfl
    rw [h]
    simp
  | true =>
    refine ⟨rfl, rfl, ?_⟩
    have h : (task_started noFaults ⟨true, b⟩ ⟨ck, ci, true, cts, ces⟩ task ⟨0, []⟩).2.log =
        [Effect.started 0 "Task Created",
         Effect.attr 0 "crew_key" (AttrValue.str ck),
         Effect.attr 0 "crew_id" (AttrValue.str ci),
         Effect.attr 0 "task_key" (AttrValue.str task.key),
         Effect.attr 0 "task_id" (AttrValue.str task.id),
         Effect.attr 0 "formatted_description" (AttrValue.str task.description),
         Effect.attr 0 "formatted_expected_output" (AttrValue.str task.expected_output),
         Effect.statusOk 0, Effect.ended 0, Effect.started 1 "Task Execution",
         Effect.attr 1 "crew_key" (AttrValue.str ck),
         Effect.attr 1 "crew_id" (AttrValue.str ci),
         Effect.attr 1 "task_key" (AttrValue.str task.key),
         Effect.attr 1 "task_id" (AttrValue.str task.id),
         Effect.attr 1 "formatted_description" (AttrValue.str task.description),
         Effect.attr 1 "formatted_expected_output" (AttrValue.str task.expected_output)] := rfl
    rw [h]
    simp
